import Mathlib

/-!
Verification of the donategifts payment-completion reconciliation pipeline
(`src/controller/paymentProvider.ts`) against its specification.

The controller is embedded shallowly:

* Domain records (users, wish cards, agencies, donations) live in a `Store`;
  the repository calls of the controller become pure lookups/updates on it.
* `handleDonation` is the commit orchestrator.  The three notification sends
  are each wrapped in a try/catch in the source, so they are modelled by an
  injected per-channel failure pattern `fails : Channel → Bool`; the list of
  `(channel, succeeded)` pairs records which dispatches were attempted.
* `handlePostWebhook` threads the controller state
  (`lastWishcardDonation` slot plus the store) through the Stripe branch and
  the PayPal branch.  `StripePart.invalid` stands for a request whose
  `stripe-signature` header is present but for which
  `stripeClient.webhooks.constructEvent` throws; `StripePart.valid meta`
  stands for a request whose signature verifies to an event carrying the
  metadata `meta`.  The PayPal verification callback is asynchronous in the
  source (the HTTP 200 acknowledgment is sent regardless of its outcome), so
  the PayPal branch never influences the response value.
* Machine numbers that the source manipulates arithmetically
  (`parseFloat`, `Math.floor` in `handlePostCreateIntent`) are modelled as
  rationals; values the source passes through untouched (metadata fields,
  the PayPal reference string and amount) stay strings.
-/

namespace DonateGifts

/-- A user record, as read by `userRepository.getUserByObjectId`. -/
structure User where
  id : String
  email : String
  fName : String
  lName : String
deriving DecidableEq

/-- A wish-card record; `belongsTo` is the id of the owning agency entity. -/
structure WishCard where
  id : String
  belongsTo : String
  status : String
  childFirstName : String
  wishItemName : String
  wishItemPrice : ℚ
deriving DecidableEq

/-- An agency record, looked up by name. -/
structure Agency where
  agencyName : String
  accountManagerEmail : String
deriving DecidableEq

/-- A donation record as created by `donationRepository.createNewDonation`. -/
structure Donation where
  donationFrom : String
  donationTo : String
  donationCard : String
  donationPrice : String
deriving DecidableEq

/-- The external persistence collaborator: all domain records. -/
structure Store where
  users : List User
  wishCards : List WishCard
  agencies : List Agency
  donations : List Donation
deriving DecidableEq

/-- `userRepository.getUserByObjectId`. -/
def getUserByObjectId (st : Store) (userId : String) : Option User :=
  st.users.find? (fun u => u.id == userId)

/-- `wishCardRepository.getWishCardByObjectId`. -/
def getWishCardByObjectId (st : Store) (wishCardId : String) : Option WishCard :=
  st.wishCards.find? (fun w => w.id == wishCardId)

/-- `agencyRepository.getAgencyByName`. -/
def getAgencyByName (st : Store) (agencyName : String) : Option Agency :=
  st.agencies.find? (fun a => a.agencyName == agencyName)

/-- `wishCardRepository.updateWishCardByObjectId(id, {status})`. -/
def updateWishCardByObjectId (st : Store) (wishCardId : String) (status : String) : Store :=
  { st with
    wishCards := st.wishCards.map (fun w =>
      if w.id == wishCardId then { w with status := status } else w) }

/-- `donationRepository.createNewDonation`. -/
def createNewDonation (st : Store) (d : Donation) : Store :=
  { st with donations := st.donations ++ [d] }

/-- The three notification channels of the fan-out. -/
inductive Channel
  | donationConfirmationEmail
  | agencyDonationEmail
  | discordDonationNotification
deriving DecidableEq

/-- The errors `handleDonation` can throw. -/
inductive DonationError
  | wishCardNotFound (wishCardId : String)
  | userNotFound (userId : String)
  | agencyNotFound (agencyName : String)
deriving DecidableEq

/-- The argument object of `handleDonation`. -/
structure DonationArgs where
  service : String
  userId : String
  wishCardId : String
  amount : String
  userDonation : String
  agencyName : String
deriving DecidableEq

/-- The notification fan-out at the end of `handleDonation`: each of the three
sends is in its own try/catch, so each is attempted exactly once regardless of
the others; the boolean records whether the send succeeded. -/
def notificationAttempts (fails : Channel → Bool) : List (Channel × Bool) :=
  [(Channel.donationConfirmationEmail, !fails Channel.donationConfirmationEmail),
   (Channel.agencyDonationEmail, !fails Channel.agencyDonationEmail),
   (Channel.discordDonationNotification, !fails Channel.discordDonationNotification)]

/-- `handleDonation`: resolve user, wish card and agency; throw if the wish
card is missing; update the wish-card status to "donated"; throw if the user
or the agency is missing; create the donation record; fan out notifications.
Returns the store after the mutations performed up to the throw (repository
writes are not rolled back), the outcome, and the attempted notifications. -/
def handleDonation (fails : Channel → Bool) (st : Store) (a : DonationArgs) :
    Store × Except DonationError Unit × List (Channel × Bool) :=
  let user := getUserByObjectId st a.userId
  let wishCard := getWishCardByObjectId st a.wishCardId
  let agency := getAgencyByName st a.agencyName
  match wishCard with
  | none => (st, Except.error (DonationError.wishCardNotFound a.wishCardId), [])
  | some wc =>
    let st1 := updateWishCardByObjectId st wc.id "donated"
    match user with
    | none => (st1, Except.error (DonationError.userNotFound a.userId), [])
    | some u =>
      match agency with
      | none => (st1, Except.error (DonationError.agencyNotFound a.agencyName), [])
      | some _ag =>
        let st2 := createNewDonation st1
          { donationFrom := u.id, donationTo := wc.belongsTo,
            donationCard := wc.id, donationPrice := a.amount }
        (st2, Except.ok (), notificationAttempts fails)

/-- The metadata bag stamped on a Stripe payment intent and read back from a
verified Stripe webhook event (`event.data.object.metadata`). -/
structure StripeMetadata where
  wishCardId : String
  userId : String
  agencyName : String
  userDonation : String
  amount : String
deriving DecidableEq

/-- The Stripe side of an inbound webhook request: no `stripe-signature`
header at all, a header whose verification throws inside
`stripeClient.webhooks.constructEvent`, or a header that verifies to an event
with the given metadata. -/
inductive StripePart
  | missing
  | invalid
  | valid (meta : StripeMetadata)
deriving DecidableEq

/-- The first purchase unit of a PayPal order resource: its composite
`reference_id` string and its `amount.value`. -/
structure PayPalResource where
  referenceId : String
  amountValue : String
deriving DecidableEq

/-- The PayPal side of an inbound webhook request: either the declared
`event_type` is not `CHECKOUT.ORDER.APPROVED`, or it is and the
`getAndVerify` callback reports the given verification result. -/
inductive PayPalPart
  | notApproved
  | approved (verified : Bool) (resource : PayPalResource)
deriving DecidableEq

/-- An inbound `POST /payment/webhook` request. -/
structure WebhookRequest where
  stripe : StripePart
  paypal : PayPalPart
deriving DecidableEq

/-- The controller's state: the single-slot dedup memory
`lastWishcardDonation` (initialised to `""`) and the domain store. -/
structure CtrlState where
  lastWishcardDonation : String
  store : Store
deriving DecidableEq

/-- The webhook response: `badRequest msg` is the
`res.status(400).send(...)` of the catch block, `receivedOk` is the
`res.json({received: true})` at the end of the handler. -/
inductive WebhookResponse
  | badRequest (message : String)
  | receivedOk
deriving DecidableEq

/-- HTTP status code of a webhook response. -/
def WebhookResponse.status : WebhookResponse → Nat
  | .badRequest _ => 400
  | .receivedOk => 200

/-- The dedup gate: process only when the item id differs from the single
remembered last-processed id (`lastWishcardDonation !== wishCardId`). -/
def shouldProcess (s : CtrlState) (wishCardId : String) : Bool :=
  s.lastWishcardDonation != wishCardId

/-- The `handleDonation` argument object built from Stripe event metadata. -/
def stripeDonationArgs (meta : StripeMetadata) : DonationArgs :=
  { service := "Stripe", userId := meta.userId, wishCardId := meta.wishCardId,
    amount := meta.amount, userDonation := meta.userDonation,
    agencyName := meta.agencyName }

/-- Split a character list at every occurrence of the separator, keeping
empty pieces, as JavaScript `String.prototype.split` with a one-character
separator does. -/
def splitOnSep (sep : Char) : List Char → List (List Char)
  | [] => [[]]
  | c :: rest =>
    match splitOnSep sep rest with
    | [] => [[]]
    | w :: ws => if c == sep then [] :: (w :: ws) else (c :: w) :: ws

/-- JavaScript `s.split(sep)` for a one-character separator. -/
def jsSplit (s : String) (sep : Char) : List String :=
  (splitOnSep sep s.data).map (fun cs => String.mk cs)

/-- The PayPal normalizer: `reference_id.split('%')` read positionally as
payer id, item id, supplemental amount, agency name (a missing position is
JavaScript `undefined`, modelled as `""`); the charged amount is the purchase
unit's own `amount.value`. -/
def normalizePayPalResource (r : PayPalResource) : DonationArgs :=
  let data := jsSplit r.referenceId '%'
  { service := "Paypal", userId := data.getD 0 "", wishCardId := data.getD 1 "",
    amount := r.amountValue, userDonation := data.getD 2 "",
    agencyName := data.getD 3 "" }

/-- The PayPal branch of `handlePostWebhook`.  Only engaged for the approved
event type; on verification failure the error is logged and re-thrown inside
the detached asynchronous callback, so neither the state nor the response is
affected; on success `handleDonation` runs (its mutations persist even if it
throws, the throw being unobservable to the response). -/
def handlePayPalWebhook (fails : Channel → Bool) (s : CtrlState) (pp : PayPalPart) :
    CtrlState × WebhookResponse × List (Channel × Bool) :=
  match pp with
  | .notApproved => (s, .receivedOk, [])
  | .approved verified r =>
    if verified then
      let out := handleDonation fails s.store (normalizePayPalResource r)
      ({ s with store := out.1 }, .receivedOk, out.2.2)
    else
      (s, .receivedOk, [])

/-- `handlePostWebhook`.  Stripe branch first: an invalid signature throws in
`constructEvent` and the catch returns 400; on a verified event the dedup
slot is compared and, when it differs, set to the event's item id before
`handleDonation` is awaited; a throw from `handleDonation` lands in the same
catch and returns 400 (mutations already performed persist).  Then the PayPal
branch, and finally `res.json({received: true})`.  The third component
collects the attempted notification dispatches. -/
def handlePostWebhook (fails : Channel → Bool) (s : CtrlState) (req : WebhookRequest) :
    CtrlState × WebhookResponse × List (Channel × Bool) :=
  match req.stripe with
  | .missing => handlePayPalWebhook fails s req.paypal
  | .invalid => (s, .badRequest "Webhook Error", [])
  | .valid meta =>
    if shouldProcess s meta.wishCardId then
      let s1 : CtrlState := { s with lastWishcardDonation := meta.wishCardId }
      let out := handleDonation fails s1.store (stripeDonationArgs meta)
      match out.2.1 with
      | .error _ => ({ s1 with store := out.1 }, .badRequest "Webhook Error", out.2.2)
      | .ok _ =>
        let s2 : CtrlState := { s1 with store := out.1 }
        let pout := handlePayPalWebhook fails s2 req.paypal
        (pout.1, pout.2.1, out.2.2 ++ pout.2.2)
    else
      handlePayPalWebhook fails s req.paypal

/-- The body of `POST /payment/create-intent`; `userDonation` is `none` when
the field is absent or falsy. -/
structure CreateIntentBody where
  wishCardId : String
  email : String
  agencyName : String
  userDonation : Option ℚ
deriving DecidableEq

/-- The parameters passed to `stripeClient.paymentIntents.create`. -/
structure PaymentIntentParams where
  amount : ℤ
  currency : String
  receiptEmail : String
  metaWishCardId : String
  metaUserId : String
  metaAgencyName : String
  metaUserDonation : Option ℚ
  metaAmount : ℚ
deriving DecidableEq

/-- The response of `handlePostCreateIntent`: `ok` carries the created
intent's client secret, `err` is `handleError(res, ...)`. -/
inductive CreateIntentResult
  | ok (clientSecret : String)
  | err (message : String)
deriving DecidableEq

/-- Modelled from the spec: `Utils.calculateWishItemTotalPrice` is imported
from `../helper/utils`, which is not among the sources.  The spec's pricing
property and example ("item `i9` priced at 32.50, supplemental 5.00 →
`create-intent` charges 3750 minor units"; "the floor of 100 times the sum of
the item's total price and the supplemental amount") treat the item's stored
price as its total price, so the helper is modelled as the identity. -/
def calculateWishItemTotalPrice (wishItemPrice : ℚ) : ℚ := wishItemPrice

/-- `handlePostCreateIntent`: look up the wish card; when found, charge
`Math.floor(totalItemPrice * 100)` minor units where `totalItemPrice` is the
item's computed total price plus the supplemental amount when present, create
the payment intent (the Stripe client is abstracted as the `createSecret`
function producing the client secret) and respond with the client secret;
otherwise respond with the "Wishcard not found" error. -/
def handlePostCreateIntent (createSecret : PaymentIntentParams → String)
    (st : Store) (localsUserId : String) (body : CreateIntentBody) :
    Option PaymentIntentParams × CreateIntentResult :=
  match getWishCardByObjectId st body.wishCardId with
  | some wc =>
    let base := calculateWishItemTotalPrice wc.wishItemPrice
    let totalItemPrice :=
      match body.userDonation with
      | some d => base + d
      | none => base
    let intent : PaymentIntentParams :=
      { amount := Int.floor (totalItemPrice * 100), currency := "usd",
        receiptEmail := body.email, metaWishCardId := wc.id,
        metaUserId := localsUserId, metaAgencyName := body.agencyName,
        metaUserDonation := body.userDonation, metaAmount := totalItemPrice }
    (some intent, CreateIntentResult.ok (createSecret intent))
  | none => (none, CreateIntentResult.err "Wishcard not found")

/-- Read a run of decimal digits, most significant first. -/
def decDigitsAux : List Char → Nat → Option Nat
  | [], acc => some acc
  | c :: cs, acc =>
    if c.isDigit then decDigitsAux cs (acc * 10 + (c.toNat - 48)) else none

/-- Read a nonempty all-digit string as a natural number. -/
def strToNat (s : String) : Option Nat :=
  if s.data.isEmpty then none else decDigitsAux s.data 0

/-- Decimal-string reading, to relate the string values the pipeline passes
through untouched to the numeric values the spec speaks of. -/
def parseDecimal (s : String) : Option ℚ :=
  match jsSplit s '.' with
  | [whole] => (strToNat whole).map (fun n => (n : ℚ))
  | [whole, frac] =>
    match strToNat whole, strToNat frac with
    | some w, some f => some ((w : ℚ) + (f : ℚ) / ((10 : ℚ) ^ frac.length))
    | _, _ => none
  | _ => none

/-! ## Concrete fixtures -/

/-- A payer on record. -/
def sampleUser : User :=
  { id := "u1", email := "a@x.org", fName := "Ann", lName := "Lee" }

/-- The wish card of the spec's end-to-end scenario: `i9`, priced 32.50. -/
def sampleCard : WishCard :=
  { id := "i9", belongsTo := "ag1", status := "open", childFirstName := "Kay",
    wishItemName := "Bear", wishItemPrice := 65/2 }

/-- The beneficiary agency. -/
def sampleAgency : Agency :=
  { agencyName := "HopeAgency", accountManagerEmail := "m@x.org" }

/-- A store on which every resolution succeeds. -/
def sampleStore : Store :=
  { users := [sampleUser], wishCards := [sampleCard],
    agencies := [sampleAgency], donations := [] }

/-- A store whose wish card and agency exist but whose payer is missing. -/
def noUserStore : Store :=
  { users := [], wishCards := [sampleCard], agencies := [sampleAgency],
    donations := [] }

/-- A store whose payer and wish card exist but whose agency is missing. -/
def noAgencyStore : Store :=
  { users := [sampleUser], wishCards := [sampleCard], agencies := [],
    donations := [] }

/-- A store with no records at all. -/
def emptyStore : Store :=
  { users := [], wishCards := [], agencies := [], donations := [] }

/-- Failure pattern under which every notification send succeeds. -/
def noFails : Channel → Bool := fun _ => false

/-- Failure pattern under which the public-announcement (Discord) channel
fails and the two email channels succeed. -/
def discordOnlyFails : Channel → Bool :=
  fun c => decide (c = Channel.discordDonationNotification)

/-- Stripe metadata matching the sample records. -/
def sampleMeta : StripeMetadata :=
  { wishCardId := "i9", userId := "u1", agencyName := "HopeAgency",
    userDonation := "5.00", amount := "37.50" }

/-- The `handleDonation` arguments of the sample Stripe event. -/
def sampleArgs : DonationArgs := stripeDonationArgs sampleMeta

/-- A verified wallet-provider delivery for the sample records. -/
def paypalReq : WebhookRequest :=
  { stripe := .missing,
    paypal := .approved true
      { referenceId := "u1%i9%5.00%HopeAgency", amountValue := "37.50" } }

/-- A card-provider delivery with a verified signature for the sample
records. -/
def stripeReq : WebhookRequest :=
  { stripe := .valid sampleMeta, paypal := .notApproved }

/-- The controller state at startup over the sample store. -/
def initState : CtrlState := { lastWishcardDonation := "", store := sampleStore }

/-! ## Claims -/

/-- Claim C6: for every normalized intent whose item id does not resolve to
an existing item, the commit returns the NotFound-item failure and performs
no mutation at all — in particular no item-status update and no donation
record creation. -/
theorem C6_item_not_found (fails : Channel → Bool) (st : Store) (a : DonationArgs)
    (h : getWishCardByObjectId st a.wishCardId = none) :
    handleDonation fails st a
      = (st, Except.error (DonationError.wishCardNotFound a.wishCardId), []) := by
  simp [handleDonation, h]

/-- Witness for C6 at the empty store. -/
theorem C6_item_not_found_witness :
    handleDonation noFails emptyStore sampleArgs
      = (emptyStore, Except.error (DonationError.wishCardNotFound "i9"), []) :=
  C6_item_not_found noFails emptyStore sampleArgs rfl

/-- Claim C7: for every committed donation, the three notification
dispatches are isolated: whatever the per-channel failure pattern, the
outcome stays `Committed` (here `Except.ok`) and all three channels — payer
confirmation, agency confirmation, public announcement — are attempted, in
order, each exactly once. -/
theorem C7_fanout_isolated (fails : Channel → Bool) (st : Store) (a : DonationArgs)
    (u : User) (wc : WishCard) (ag : Agency)
    (hu : getUserByObjectId st a.userId = some u)
    (hw : getWishCardByObjectId st a.wishCardId = some wc)
    (ha : getAgencyByName st a.agencyName = some ag) :
    (handleDonation fails st a).2.1 = Except.ok () ∧
    (handleDonation fails st a).2.2
      = [(Channel.donationConfirmationEmail, !fails Channel.donationConfirmationEmail),
         (Channel.agencyDonationEmail, !fails Channel.agencyDonationEmail),
         (Channel.discordDonationNotification, !fails Channel.discordDonationNotification)] := by
  simp [handleDonation, hu, hw, ha, notificationAttempts]

/-- Witness for C7: with the public-announcement channel failing, the commit
still succeeds and both email channels are still attempted. -/
theorem C7_fanout_isolated_witness :
    (handleDonation discordOnlyFails sampleStore sampleArgs).2.1 = Except.ok () ∧
    (handleDonation discordOnlyFails sampleStore sampleArgs).2.2
      = [(Channel.donationConfirmationEmail, true),
         (Channel.agencyDonationEmail, true),
         (Channel.discordDonationNotification, false)] :=
  C7_fanout_isolated discordOnlyFails sampleStore sampleArgs
    sampleUser sampleCard sampleAgency rfl rfl rfl

/-- Claim C2 counterexample: on a store whose wish card and agency exist but
whose payer is missing, the commit does fail with the NotFound-payer error,
yet a mutation IS performed: the wish card's status, `"open"` beforehand, is
`"donated"` in the resulting store.  This refutes "no mutation is
performed". -/
theorem C2_counterexample :
    (handleDonation noFails noUserStore sampleArgs).2.1
        = Except.error (DonationError.userNotFound "u1") ∧
    getWishCardByObjectId noUserStore "i9" = some sampleCard ∧
    sampleCard.status = "open" ∧
    getWishCardByObjectId (handleDonation noFails noUserStore sampleArgs).1 "i9"
        = some { sampleCard with status := "donated" } :=
  ⟨rfl, rfl, rfl, rfl⟩

/-- Claim C2 (amended): when the item resolution misses, the commit fails
with the NotFound-item error and no mutation is performed; when the item
resolves but the payer or the agency resolution misses, the commit fails
with the NotFound error for that entity and no donation record is created,
but the item-status update has already been performed — the resulting store
is exactly the input store with the wish card marked "donated". -/
theorem C2_resolution_miss (fails : Channel → Bool) (st : Store) (a : DonationArgs) :
    (getWishCardByObjectId st a.wishCardId = none →
      handleDonation fails st a
        = (st, Except.error (DonationError.wishCardNotFound a.wishCardId), [])) ∧
    (∀ wc : WishCard, getWishCardByObjectId st a.wishCardId = some wc →
      getUserByObjectId st a.userId = none →
      handleDonation fails st a
        = (updateWishCardByObjectId st wc.id "donated",
           Except.error (DonationError.userNotFound a.userId), [])) ∧
    (∀ wc : WishCard, ∀ u : User, getWishCardByObjectId st a.wishCardId = some wc →
      getUserByObjectId st a.userId = some u →
      getAgencyByName st a.agencyName = none →
      handleDonation fails st a
        = (updateWishCardByObjectId st wc.id "donated",
           Except.error (DonationError.agencyNotFound a.agencyName), [])) := by
  refine ⟨fun hw => by simp [handleDonation, hw],
          fun wc hw hu => by simp [handleDonation, hw, hu],
          fun wc u hw hu ha => by simp [handleDonation, hw, hu, ha]⟩

/-- Witness for C2: the three resolution-miss branches at concrete stores. -/
theorem C2_resolution_miss_witness :
    handleDonation noFails emptyStore sampleArgs
      = (emptyStore, Except.error (DonationError.wishCardNotFound "i9"), []) ∧
    handleDonation noFails noUserStore sampleArgs
      = (updateWishCardByObjectId noUserStore "i9" "donated",
         Except.error (DonationError.userNotFound "u1"), []) ∧
    handleDonation noFails noAgencyStore sampleArgs
      = (updateWishCardByObjectId noAgencyStore "i9" "donated",
         Except.error (DonationError.agencyNotFound "HopeAgency"), []) :=
  ⟨(C2_resolution_miss noFails emptyStore sampleArgs).1 rfl,
   (C2_resolution_miss noFails noUserStore sampleArgs).2.1 sampleCard rfl rfl,
   (C2_resolution_miss noFails noAgencyStore sampleArgs).2.2 sampleCard sampleUser rfl rfl rfl⟩

/-- Claim C8: the wallet-provider composite reference string is decoded by
the fixed positional encoding payerId % itemId % supplementalAmount %
agencyName — `"u1%i9%5.00%HopeAgency"` yields payer `"u1"`, item `"i9"`,
supplemental `"5.00"` (the decimal 5), agency `"HopeAgency"` — and the
charged donation amount is read from the purchase unit's own amount field
(`"37.50"`, the decimal 37.50), for every resource independent of the
supplemental value embedded in the reference string. -/
theorem C8_composite_reference_decoding :
    normalizePayPalResource { referenceId := "u1%i9%5.00%HopeAgency", amountValue := "37.50" }
      = { service := "Paypal", userId := "u1", wishCardId := "i9",
          amount := "37.50", userDonation := "5.00", agencyName := "HopeAgency" } ∧
    parseDecimal "5.00" = some 5 ∧
    parseDecimal "37.50" = some (75 / 2) ∧
    (∀ r : PayPalResource, (normalizePayPalResource r).amount = r.amountValue) := by
  refine ⟨by decide, ?_, ?_, fun r => rfl⟩
  · have h1 : jsSplit "5.00" '.' = ["5", "00"] := by decide
    have h2 : strToNat "5" = some 5 := by decide
    have h3 : strToNat "00" = some 0 := by decide
    simp [parseDecimal, h1, h2, h3]
  · have h1 : jsSplit "37.50" '.' = ["37", "50"] := by decide
    have h2 : strToNat "37" = some 37 := by decide
    have h3 : strToNat "50" = some 50 := by decide
    have h4 : ("50" : String).length = 2 := by decide
    simp only [parseDecimal, h1, h2, h3, h4, Option.some.injEq]
    norm_num

/-- Claim C9: for every create-intent request whose item exists and carries a
supplemental amount, the payment intent's amount in minor units is the floor
of 100 times the sum of the item's total price and the supplemental amount,
and the response carries the client secret; for every request whose item does
not exist, the "Wishcard not found" error response is returned instead. -/
theorem C9_create_intent_amount (createSecret : PaymentIntentParams → String)
    (st : Store) (uid : String) (body : CreateIntentBody) (wc : WishCard) (d : ℚ)
    (hw : getWishCardByObjectId st body.wishCardId = some wc)
    (hd : body.userDonation = some d) :
    (∃ p : PaymentIntentParams,
      handlePostCreateIntent createSecret st uid body
          = (some p, CreateIntentResult.ok (createSecret p)) ∧
      p.amount = Int.floor ((calculateWishItemTotalPrice wc.wishItemPrice + d) * 100)) ∧
    (∀ st2 : Store, ∀ b2 : CreateIntentBody,
      getWishCardByObjectId st2 b2.wishCardId = none →
      handlePostCreateIntent createSecret st2 uid b2
        = (none, CreateIntentResult.err "Wishcard not found")) := by
  constructor
  · unfold handlePostCreateIntent
    rw [hw, hd]
    exact ⟨_, rfl, rfl⟩
  · intro st2 b2 h2
    unfold handlePostCreateIntent
    rw [h2]

/-- The Stripe client abstracted for the C9 witness. -/
def secretFn : PaymentIntentParams → String := fun _ => "cs_test"

/-- The create-intent body of the spec's end-to-end scenario. -/
def sampleBody : CreateIntentBody :=
  { wishCardId := "i9", email := "a@x.org", agencyName := "HopeAgency",
    userDonation := some 5 }

/-- Witness for C9 at the spec's scenario: item price 32.50, supplemental
5.00, so the charge is 3750 minor units; and the missing-item error. -/
theorem C9_create_intent_amount_witness :
    (∃ p : PaymentIntentParams,
      handlePostCreateIntent secretFn sampleStore "u1" sampleBody
          = (some p, CreateIntentResult.ok (secretFn p)) ∧
      p.amount = Int.floor ((calculateWishItemTotalPrice sampleCard.wishItemPrice + 5) * 100)) ∧
    handlePostCreateIntent secretFn emptyStore "u1" sampleBody
        = (none, CreateIntentResult.err "Wishcard not found") ∧
    Int.floor ((calculateWishItemTotalPrice sampleCard.wishItemPrice + 5) * 100) = 3750 :=
  ⟨(C9_create_intent_amount secretFn sampleStore "u1" sampleBody sampleCard 5 rfl rfl).1,
   (C9_create_intent_amount secretFn sampleStore "u1" sampleBody sampleCard 5 rfl rfl).2
      emptyStore sampleBody rfl,
   by norm_num [calculateWishItemTotalPrice, sampleCard]⟩

/-- The PayPal branch always yields the received-OK response: its
verification failure is logged and re-thrown only inside the detached
asynchronous callback. -/
theorem handlePayPalWebhook_ok (fails : Channel → Bool) (s : CtrlState) (pp : PayPalPart) :
    (handlePayPalWebhook fails s pp).2.1 = WebhookResponse.receivedOk := by
  cases pp with
  | notApproved => rfl
  | approved v r => cases v <;> simp [handlePayPalWebhook]

/-- Claim C4: for every card-path webhook request whose signature header
fails verification, the state is returned unchanged — no item-status update,
no donation record, no notification dispatch — and the response is the 400
client error, whatever the PayPal side of the request holds. -/
theorem C4_invalid_signature_no_mutation (fails : Channel → Bool) (s : CtrlState)
    (pp : PayPalPart) :
    handlePostWebhook fails s { stripe := StripePart.invalid, paypal := pp }
      = (s, WebhookResponse.badRequest "Webhook Error", []) ∧
    (WebhookResponse.badRequest "Webhook Error").status = 400 :=
  ⟨rfl, rfl⟩

/-- Claim C3 counterexample: a card-path request whose signature verification
SUCCEEDED (the Stripe part is a verified event) but whose donation handling
throws — here the item id resolves to nothing — also receives the 400
response, so signature-verification failures are not the only source of
non-200 responses. -/
theorem C3_counterexample :
    stripeReq.stripe = StripePart.valid sampleMeta ∧
    (handlePostWebhook noFails { lastWishcardDonation := "", store := emptyStore } stripeReq).2.1
        = WebhookResponse.badRequest "Webhook Error" ∧
    (WebhookResponse.badRequest "Webhook Error").status = 400 :=
  ⟨rfl, rfl, rfl⟩

/-- Whether the commit attempt for the given arguments throws. -/
def donationThrows (fails : Channel → Bool) (st : Store) (a : DonationArgs) : Bool :=
  match (handleDonation fails st a).2.1 with
  | Except.error _ => true
  | Except.ok _ => false

/-- Whether the try block of the Stripe branch throws: either the signature
verification fails, or the event passes the dedup gate and the awaited
donation handling throws. -/
def stripeBlockThrows (fails : Channel → Bool) (s : CtrlState) : StripePart → Bool
  | .missing => false
  | .invalid => true
  | .valid meta =>
    shouldProcess s meta.wishCardId
      && donationThrows fails s.store (stripeDonationArgs meta)

/-- Claim C3 (amended): every inbound webhook request that reaches the end of
processing is answered 200 `{received: true}`; the requests answered with the
4xx client error (400, diagnostic body) are exactly those whose card-path try
block throws — a signature-verification failure, or a donation-handling
failure after a verified signature passes the dedup gate. -/
theorem C3_response_classification (fails : Channel → Bool) (s : CtrlState)
    (req : WebhookRequest) :
    (handlePostWebhook fails s req).2.1
      = if stripeBlockThrows fails s req.stripe
          then WebhookResponse.badRequest "Webhook Error"
          else WebhookResponse.receivedOk := by
  obtain ⟨sp, pp⟩ := req
  cases sp with
  | missing =>
    simpa [handlePostWebhook, stripeBlockThrows] using handlePayPalWebhook_ok fails s pp
  | invalid => simp [handlePostWebhook, stripeBlockThrows]
  | valid meta =>
    simp only [handlePostWebhook, stripeBlockThrows]
    rcases Bool.eq_false_or_eq_true (shouldProcess s meta.wishCardId) with hg | hg
    · simp only [hg, Bool.true_and, if_true]
      cases hE : (handleDonation fails s.store (stripeDonationArgs meta)).2.1 with
      | error e => simp [donationThrows, hE]
      | ok u => simp [donationThrows, hE, handlePayPalWebhook_ok]
    · simp [hg, handlePayPalWebhook_ok]

/-- Claim C1 counterexample: a verified wallet-provider payload delivered
twice in a row for the same item id creates a donation record on BOTH
deliveries — no dedup is applied on that path — so the pipeline does not
create exactly one donation record under duplicate delivery from either
provider. -/
theorem C1_counterexample :
    (handlePostWebhook noFails initState paypalReq).1.store.donations.length = 1 ∧
    (handlePostWebhook noFails
        (handlePostWebhook noFails initState paypalReq).1 paypalReq).1.store.donations.length = 2 := by
  exact ⟨by decide, by decide⟩

/-- Claim C1 (amended): for the card-provider path, delivering the identical
verified payload twice in a row for the same item id creates exactly one
donation record — the first delivery adds one record, and the second
delivery changes nothing (no additional commit) and is acknowledged 200.
The wallet-provider path performs a commit on every verified delivery, so
duplicates there are committed again (see the counterexample). -/
theorem C1_card_duplicate_single_commit (fails : Channel → Bool) (s : CtrlState)
    (meta : StripeMetadata) (u : User) (wc : WishCard) (ag : Agency)
    (hg : shouldProcess s meta.wishCardId = true)
    (hu : getUserByObjectId s.store meta.userId = some u)
    (hw : getWishCardByObjectId s.store meta.wishCardId = some wc)
    (ha : getAgencyByName s.store meta.agencyName = some ag) :
    (handlePostWebhook fails s
        { stripe := StripePart.valid meta, paypal := PayPalPart.notApproved }).1.store.donations.length
      = s.store.donations.length + 1 ∧
    handlePostWebhook fails
        (handlePostWebhook fails s
          { stripe := StripePart.valid meta, paypal := PayPalPart.notApproved }).1
        { stripe := StripePart.valid meta, paypal := PayPalPart.notApproved }
      = ((handlePostWebhook fails s
            { stripe := StripePart.valid meta, paypal := PayPalPart.notApproved }).1,
         WebhookResponse.receivedOk, []) := by
  have hdon : handleDonation fails s.store (stripeDonationArgs meta)
      = (createNewDonation (updateWishCardByObjectId s.store wc.id "donated")
          { donationFrom := u.id, donationTo := wc.belongsTo,
            donationCard := wc.id, donationPrice := meta.amount },
         Except.ok (), notificationAttempts fails) := by
    simp [handleDonation, stripeDonationArgs, hu, hw, ha]
  have hfirst : handlePostWebhook fails s
      { stripe := StripePart.valid meta, paypal := PayPalPart.notApproved }
      = ({ lastWishcardDonation := meta.wishCardId,
           store := createNewDonation (updateWishCardByObjectId s.store wc.id "donated")
             { donationFrom := u.id, donationTo := wc.belongsTo,
               donationCard := wc.id, donationPrice := meta.amount } },
         WebhookResponse.receivedOk, notificationAttempts fails) := by
    simp [handlePostWebhook, hg, hdon, handlePayPalWebhook]
  constructor
  · rw [hfirst]
    simp [createNewDonation, updateWishCardByObjectId]
  · rw [hfirst]
    simp [handlePostWebhook, shouldProcess, handlePayPalWebhook]

/-- Witness for C1 at the sample records: the first card-path delivery
commits one donation; the identical second delivery is a no-op
acknowledgment. -/
theorem C1_card_duplicate_single_commit_witness :
    (handlePostWebhook noFails initState stripeReq).1.store.donations.length
      = initState.store.donations.length + 1 ∧
    handlePostWebhook noFails (handlePostWebhook noFails initState stripeReq).1 stripeReq
      = ((handlePostWebhook noFails initState stripeReq).1,
         WebhookResponse.receivedOk, []) :=
  C1_card_duplicate_single_commit noFails initState sampleMeta
    sampleUser sampleCard sampleAgency rfl rfl rfl rfl

/-- The controller state whose dedup slot already remembers `"i9"`. -/
def dupState : CtrlState := { lastWishcardDonation := "i9", store := sampleStore }

/-- Claim C5 counterexample: a verified wallet-provider event for item `"i9"`
arriving while the gate's remembered id is already `"i9"` still commits (a
donation record is created), although `shouldProcess` answers false — so the
dedup gate is not consulted for wallet-provider events. -/
theorem C5_counterexample :
    shouldProcess dupState "i9" = false ∧
    (normalizePayPalResource
        { referenceId := "u1%i9%5.00%HopeAgency", amountValue := "37.50" }).wishCardId = "i9" ∧
    (handlePostWebhook noFails dupState paypalReq).1.store.donations.length = 1 := by
  exact ⟨rfl, by decide, by decide⟩

/-- Claim C5 (amended): only card-provider events consult the dedup gate.
For a verified card-provider event, the gate is consulted with the intent's
item id immediately before commit: when the item id equals the remembered id
nothing happens (no commit, state unchanged, 200 acknowledged); when it
differs, the remembered id is set to the item id before the commit step runs
and the commit executes against the store. -/
theorem C5_card_gate_only (fails : Channel → Bool) (s : CtrlState)
    (meta : StripeMetadata) :
    (shouldProcess s meta.wishCardId = false →
      handlePostWebhook fails s
          { stripe := StripePart.valid meta, paypal := PayPalPart.notApproved }
        = (s, WebhookResponse.receivedOk, [])) ∧
    (shouldProcess s meta.wishCardId = true →
      (handlePostWebhook fails s
          { stripe := StripePart.valid meta, paypal := PayPalPart.notApproved }).1.lastWishcardDonation
        = meta.wishCardId ∧
      (handlePostWebhook fails s
          { stripe := StripePart.valid meta, paypal := PayPalPart.notApproved }).1.store
        = (handleDonation fails s.store (stripeDonationArgs meta)).1) := by
  constructor
  · intro hg
    simp [handlePostWebhook, hg, handlePayPalWebhook]
  · intro hg
    simp only [handlePostWebhook, hg, if_true]
    cases hE : (handleDonation fails s.store (stripeDonationArgs meta)).2.1 with
    | error e => simp [hE]
    | ok u => simp [hE, handlePayPalWebhook]

/-- Witness for C5: with the slot remembering `"i9"` the identical card
event is skipped; from the startup state it passes, the slot becomes `"i9"`,
and the store is the commit's result. -/
theorem C5_card_gate_only_witness :
    handlePostWebhook noFails dupState stripeReq
      = (dupState, WebhookResponse.receivedOk, []) ∧
    ((handlePostWebhook noFails initState stripeReq).1.lastWishcardDonation = "i9" ∧
     (handlePostWebhook noFails initState stripeReq).1.store
        = (handleDonation noFails initState.store (stripeDonationArgs sampleMeta)).1) :=
  ⟨(C5_card_gate_only noFails dupState sampleMeta).1 rfl,
   (C5_card_gate_only noFails initState sampleMeta).2 rfl⟩

/-- If the commit throws, no donation record was created: the donations list
of the resulting store is the input one. -/
theorem handleDonation_error_donations (fails : Channel → Bool) (st : Store)
    (a : DonationArgs) (e : DonationError)
    (he : (handleDonation fails st a).2.1 = Except.error e) :
    (handleDonation fails st a).1.donations = st.donations := by
  unfold handleDonation at he ⊢
  cases hw : getWishCardByObjectId st a.wishCardId with
  | none => simp [hw]
  | some wc =>
    cases hu : getUserByObjectId st a.userId with
    | none => simp [hw, hu, updateWishCardByObjectId]
    | some u =>
      cases ha : getAgencyByName st a.agencyName with
      | none => simp [hw, hu, ha, updateWishCardByObjectId]
      | some ag => simp [hw, hu, ha] at he

/-- Claim C10: on the card path the dedup slot is set to the event's item id
before the commit runs and is not reset when the commit throws: after a
failed card-path commit for an item, the slot holds that item id, no
donation record was created, and an identical valid redelivery is judged a
duplicate — it changes nothing and is acknowledged 200, so redelivery never
creates a donation record for that item. -/
theorem C10_slot_survives_commit_failure (fails : Channel → Bool) (s : CtrlState)
    (meta : StripeMetadata) (e : DonationError)
    (hg : shouldProcess s meta.wishCardId = true)
    (he : (handleDonation fails s.store (stripeDonationArgs meta)).2.1 = Except.error e) :
    (handlePostWebhook fails s
        { stripe := StripePart.valid meta, paypal := PayPalPart.notApproved }).1.lastWishcardDonation
      = meta.wishCardId ∧
    (handlePostWebhook fails s
        { stripe := StripePart.valid meta, paypal := PayPalPart.notApproved }).1.store.donations
      = s.store.donations ∧
    handlePostWebhook fails
        (handlePostWebhook fails s
          { stripe := StripePart.valid meta, paypal := PayPalPart.notApproved }).1
        { stripe := StripePart.valid meta, paypal := PayPalPart.notApproved }
      = ((handlePostWebhook fails s
            { stripe := StripePart.valid meta, paypal := PayPalPart.notApproved }).1,
         WebhookResponse.receivedOk, []) := by
  have hdd := handleDonation_error_donations fails s.store (stripeDonationArgs meta) e he
  have hfirst : handlePostWebhook fails s
      { stripe := StripePart.valid meta, paypal := PayPalPart.notApproved }
      = ({ lastWishcardDonation := meta.wishCardId,
           store := (handleDonation fails s.store (stripeDonationArgs meta)).1 },
         WebhookResponse.badRequest "Webhook Error",
         (handleDonation fails s.store (stripeDonationArgs meta)).2.2) := by
    simp only [handlePostWebhook, hg, if_true]
    cases hE : (handleDonation fails s.store (stripeDonationArgs meta)).2.1 with
    | error e2 => simp [hE]
    | ok u => rw [hE] at he; exact absurd he (by simp)
  refine ⟨by rw [hfirst], by rw [hfirst]; exact hdd, ?_⟩
  rw [hfirst]
  simp [handlePostWebhook, shouldProcess, handlePayPalWebhook]

/-- The startup state over the store whose payer is missing: the card-path
commit for the sample event throws there. -/
def failState : CtrlState := { lastWishcardDonation := "", store := noUserStore }

/-- Witness for C10: the sample card event over the payer-less store fails
its commit, yet the slot remembers `"i9"`, no donation was recorded, and
the identical redelivery is a no-op acknowledgment. -/
theorem C10_slot_survives_commit_failure_witness :
    (handlePostWebhook noFails failState stripeReq).1.lastWishcardDonation = "i9" ∧
    (handlePostWebhook noFails failState stripeReq).1.store.donations
      = failState.store.donations ∧
    handlePostWebhook noFails (handlePostWebhook noFails failState stripeReq).1 stripeReq
      = ((handlePostWebhook noFails failState stripeReq).1,
         WebhookResponse.receivedOk, []) :=
  C10_slot_survives_commit_failure noFails failState sampleMeta
    (DonationError.userNotFound "u1") rfl rfl

end DonateGifts
